import Mathlib

/-!
Verification development for the prowler AWS provider core:
`prowler/providers/aws/aws_provider.py` and
`prowler/providers/aws/services/backup/backup_service.py`.

The Python code is shallowly embedded: external collaborators (the boto3
session, the packaged region-catalog file, the check registry and the
resource scope filter) are passed in as function parameters; a Python
exception escaping a function is an `Except.error`, and `sys.exit` is a
distinguished `Outcome.exited`.
-/

/-- Error classes a Python exception can carry in the embedded fragment. -/
inductive PyError where
  | indexError
  | attributeError
  | keyError
  | clientError
deriving DecidableEq, Repr

/-- Adding an element to a Python `set`, modelled as a duplicate-free list
that remembers insertion order (the code only observes membership). -/
def addSet (l : List String) (x : String) : List String :=
  if x ∈ l then l else l ++ [x]

/-- Truthiness of an optional Python string: `None` and `""` are falsy. -/
def pyTruthyStr : Option String → Bool
  | none => false
  | some s => if s = "" then false else true

/-- Check that the first list is a prefix of the second (by characters). -/
def startsWithChars : List Char → List Char → Bool
  | [], _ => true
  | _ :: _, [] => false
  | a :: as, b :: bs => a = b && startsWithChars as bs

/-- Check that `p` occurs as a contiguous run inside the second list. -/
def hasSubstrChars (p : List Char) : List Char → Bool
  | [] => startsWithChars p []
  | b :: bs => startsWithChars p (b :: bs) || hasSubstrChars p bs

/-- Python's `pat in s` substring test. -/
def strContains (s pat : String) : Bool :=
  hasSubstrChars pat.data s.data

/-- Auxiliary for `pySplit`: split a character list at a separator,
accumulating the current field in reverse. -/
def splitOnCharAux (sep : Char) : List Char → List Char → List (List Char)
  | [], cur => [cur.reverse]
  | c :: cs, cur =>
    if c = sep then cur.reverse :: splitOnCharAux sep cs []
    else splitOnCharAux sep cs (c :: cur)

/-- Python's `s.split(sep)` for a one-character separator: empty fields
are kept, and the empty string yields one empty field. -/
def pySplit (s : String) (sep : Char) : List String :=
  (splitOnCharAux sep s.data []).map String.mk

/-- Python's `s.replace("-", "_")`. -/
def underscoreHyphens (s : String) : String :=
  String.mk (s.data.map (fun c => if c = '-' then '_' else c))

/-- Lexicographic code-point comparison of character lists. -/
def charListLt : List Char → List Char → Bool
  | [], [] => false
  | [], _ :: _ => true
  | _ :: _, [] => false
  | a :: as, b :: bs =>
    if a.toNat < b.toNat then true
    else if b.toNat < a.toNat then false
    else charListLt as bs

/-- Python's `a < b` on strings: lexicographic by code point. -/
def strLt (a b : String) : Bool :=
  charListLt a.data b.data

/-- Insert a string into an already sorted list (ascending). -/
def insertStr (x : String) : List String → List String
  | [] => [x]
  | y :: ys => if strLt x y then x :: y :: ys else y :: insertStr x ys

/-- Python's `sorted` on a list of strings (code-point order). -/
def sortStrings (l : List String) : List String :=
  l.foldr insertStr []

/-! ## generate_regional_clients (aws_provider.py lines 107-143)

The catalog lookup `data["services"][service]["regions"][partition]` is an
external file read: it is passed in as `catalog_regions`, `none` standing
for the `KeyError` when the service or partition is absent.  Instantiating
a boto3 client is the external `mkClient`; the Python
`list(set(json_regions).intersection(audited_regions))` has a hash-table
iteration order, so the order it produces is an oracle `intersectOrder`
constrained by `IntersectOrderOK`. -/

/-- A regional client: a live provider client tagged with its region. -/
structure RegionalClient where
  service : String
  region : String
deriving DecidableEq, Repr

/-- A well-formed model of `list(set(a).intersection(b))`: some duplicate-free
enumeration of the two lists' common elements, in an unspecified order. -/
def IntersectOrderOK (f : List String → List String → List String) : Prop :=
  ∀ a b : List String, (f a b).Nodup ∧ ∀ x, x ∈ f a b ↔ x ∈ a ∧ x ∈ b

/-- Effective regions: the catalog list when no allow-list was given,
otherwise the (unordered) intersection with the allow-list. -/
def effective_regions (intersectOrder : List String → List String → List String)
    (json_regions : List String) (audited_regions : List String) : List String :=
  if audited_regions ≠ [] then intersectOrder json_regions audited_regions
  else json_regions

/-- Python's `x in l` for an optional string: `None` is in no string list. -/
def pyMemOpt (x : Option String) (l : List String) : Bool :=
  match x with
  | none => false
  | some s => decide (s ∈ l)

/-- Collapse for a global service: keep the profile region when it is in the
effective list, else the first element of the effective list; nothing when
the effective list is empty.  Mirrors lines 127-131 of the source. -/
def global_region_selection (regions : List String) (profile_region : Option String) :
    List String :=
  if regions ≠ [] then
    (if pyMemOpt profile_region regions then [profile_region.getD ""] else regions).take 1
  else regions

/-- The single region a global-service call settles on (for a non-empty
effective list): the profile region when it is in the list, else the list's
head. -/
def selected_global_region (eff : List String) (profile_region : Option String) : String :=
  if pyMemOpt profile_region eff then profile_region.getD "" else eff.headD ""

/-- The client-building loop of lines 132-137: one client per region, the
dict keyed by region.  An exception from `mkClient` escapes the loop and is
caught by the function-level handler, which returns `None`. -/
def buildClientsLoop (service : String) (mkClient : String → Except PyError Unit) :
    List String → List (String × RegionalClient) → Option (List (String × RegionalClient))
  | [], acc => some acc
  | r :: rs, acc =>
    match mkClient r with
    | .error _ => none
    | .ok _ => buildClientsLoop service mkClient rs (acc ++ [(r, { service := service, region := r })])

/-- Embedding of `generate_regional_clients`.  Returns `none` when the
function-level `except` swallowed an exception and fell through with `None`. -/
def generate_regional_clients (service : String)
    (catalog_regions : Option (List String))
    (audited_regions : List String)
    (profile_region : Option String)
    (intersectOrder : List String → List String → List String)
    (mkClient : String → Except PyError Unit)
    (global_service : Bool) : Option (List (String × RegionalClient)) :=
  match catalog_regions with
  | none => none
  | some json_regions =>
    let regions := effective_regions intersectOrder json_regions audited_regions
    let regions := if global_service then global_region_selection regions profile_region
                   else regions
    buildClientsLoop service mkClient regions []

/-- Client instantiation that always succeeds. -/
def mkAllOk : String → Except PyError Unit := fun _ => .ok ()

/-- Client instantiation failing exactly in us-east-1. -/
def mkFailUsEast : String → Except PyError Unit :=
  fun r => if r = "us-east-1" then .error .clientError else .ok ()

/-- An intersection oracle that filters the first list by the second and then
reverses: a legitimate set-iteration order that is not the catalog order. -/
def interRevFilter : List String → List String → List String :=
  fun a b => (a.filter (fun x => decide (x ∈ b))).reverse

/-! ## Credential refresh (aws_provider.py lines 63-104)

The STS endpoint is the external `sts`; `sys.exit(1)` is `Outcome.exited 1`;
an uncaught Python exception would be `Outcome.raised`. -/

/-- The observable result of running a piece of Python code: a value, an
uncaught exception propagating to the caller, or process termination. -/
inductive Outcome (α : Type) where
  | ok (a : α)
  | raised (e : PyError)
  | exited (code : Nat)
deriving DecidableEq, Repr

/-- The assumed-role descriptor (`AWS_Assume_Role`). -/
structure AWS_Assume_Role where
  role_arn : String
  session_duration : Int
  external_id : Option String
deriving DecidableEq, Repr

/-- The arguments of one `sts_client.assume_role` call. -/
structure AssumeRoleCall where
  roleArn : String
  roleSessionName : String
  durationSeconds : Int
  externalId : Option String
deriving DecidableEq, Repr

/-- Credentials returned by the token-exchange endpoint. -/
structure StsCredentials where
  accessKeyId : String
  secretAccessKey : String
  sessionToken : String
  expirationIso : String
deriving DecidableEq, Repr

/-- The credential dictionary `refresh` hands back to botocore. -/
structure RefreshedCredentials where
  access_key : String
  secret_key : String
  token : String
  expiry_time : String
deriving DecidableEq, Repr

/-- The one STS call `assume_role` issues: with the external id and the
plain session name when an external id was supplied, without it and with
the Pro session name otherwise (lines 84-98). -/
def assume_role_call (info : AWS_Assume_Role) : AssumeRoleCall :=
  if pyTruthyStr info.external_id then
    { roleArn := info.role_arn, roleSessionName := "ProwlerAsessmentSession",
      durationSeconds := info.session_duration, externalId := info.external_id }
  else
    { roleArn := info.role_arn, roleSessionName := "ProwlerProAsessmentSession",
      durationSeconds := info.session_duration, externalId := none }

/-- Embedding of `assume_role` (lines 80-104): any exception from the STS
call is caught, logged and turned into `sys.exit(1)`. -/
def assume_role (sts : AssumeRoleCall → Except PyError StsCredentials)
    (info : AWS_Assume_Role) : Outcome StsCredentials :=
  match sts (assume_role_call info) with
  | .error _ => .exited 1
  | .ok creds => .ok creds

/-- Embedding of `AWS_Provider.refresh` (lines 63-77): re-run the role
assumption and repackage the credential fields. -/
def AWS_Provider.refresh (sts : AssumeRoleCall → Except PyError StsCredentials)
    (role_info : AWS_Assume_Role) : Outcome RefreshedCredentials :=
  match assume_role sts role_info with
  | .exited c => .exited c
  | .raised e => .raised e
  | .ok r => .ok { access_key := r.accessKeyId, secret_key := r.secretAccessKey,
                   token := r.sessionToken, expiry_time := r.expirationIso }

/-- An STS endpoint whose every call fails. -/
def stsAlwaysFails : AssumeRoleCall → Except PyError StsCredentials :=
  fun _ => .error .clientError

/-- A sample assumed-role descriptor. -/
def sampleRole : AWS_Assume_Role :=
  { role_arn := "arn:aws:iam::111111111111:role/audit", session_duration := 3600,
    external_id := none }

/-! ## get_checks_from_input_arn (aws_provider.py lines 162-217)

`list_modules` is external: `hasModule service` says whether it returns
normally (`false` = `ModuleNotFoundError`); `recover_checks_from_service`
is the external check registry.  Splitting an ARN with fewer than six
colon-separated fields raises `IndexError` in the source, embedded as
`PyError.indexError`. -/

/-- Mutable loop state of the resource scan: the two sets and the leaked
value of the `sub_service` loop variable after the last iteration. -/
structure ScanState where
  services : List String
  subs : List String
  last_sub_service : String
deriving DecidableEq, Repr

/-- State before the resource loop runs. -/
def scanInit : ScanState :=
  { services := [], subs := [], last_sub_service := "" }

/-- The four services whose subservice token is the service itself. -/
def services_without_subservices : List String :=
  ["guardduty", "kms", "s3", "elb"]

/-- Service renaming of lines 176-181: `lambda` to `awslambda`,
`elasticloadbalancing` to `elb`, `logs` to `cloudwatch`. -/
def normalize_service (service : String) : String :=
  let s1 := if service = "lambda" then "awslambda" else service
  if s1 = "elasticloadbalancing" then "elb"
  else if s1 = "logs" then "cloudwatch"
  else s1

/-- Subservice aliasing of lines 194-203, applied in source order. -/
def parse_sub_service (service sub_service : String) : String :=
  let s1 := if service = "ec2" ∧ sub_service = "security_group" then "securitygroup"
            else sub_service
  let s2 := if service = "ec2" ∧ s1 = "network_acl" then "networkacl" else s1
  let s3 := if service = "ec2" ∧ s2 = "image" then "ami" else s2
  if service = "rds" ∧ s3 = "cluster_snapshot" then "snapshot" else s3

/-- Raw service token: `resource.split(":")[2]`. -/
def raw_service_token (resource : String) : String :=
  (pySplit resource ':').getD 2 ""

/-- Raw subservice token:
`resource.split(":")[5].split("/")[0].replace("-", "_")`. -/
def raw_sub_service_token (resource : String) : String :=
  underscoreHyphens ((pySplit ((pySplit resource ':').getD 5 "") '/').getD 0 "")

/-- One iteration of the `for resource in audit_resources` loop
(lines 170-206): both splits happen first, WAF ARNs then contribute
nothing, otherwise the service set and the subservice set are extended. -/
def processResource (hasModule : String → Bool) (st : ScanState) (resource : String) :
    Except PyError ScanState :=
  if (pySplit resource ':').length < 6 then .error .indexError
  else
    let service := raw_service_token resource
    let sub_service := raw_sub_service_token resource
    if service = "wafv2" ∨ service = "waf" then
      .ok { st with last_sub_service := sub_service }
    else
      let service := normalize_service service
      let services := if hasModule service then addSet st.services service else st.services
      if service ∈ services_without_subservices then
        .ok { services := services, subs := addSet st.subs service,
              last_sub_service := sub_service }
      else
        let sub2 := parse_sub_service service sub_service
        .ok { services := services, subs := addSet st.subs sub2,
              last_sub_service := sub2 }

/-- The whole resource loop. -/
def scanResources (hasModule : String → Bool) :
    List String → ScanState → Except PyError ScanState
  | [], st => .ok st
  | r :: rs, st =>
    match processResource hasModule st r with
    | .error e => .error e
    | .ok st2 => scanResources hasModule rs st2

/-- The check filter of lines 211-214: some subservice token is a substring
of the check name, and the carve-out condition reads the leaked loop
variable `sub_service`, not the token that matched. -/
def check_selected (subs : List String) (last_sub_service : String) (check : String) : Bool :=
  subs.any (fun t => strContains check t) &&
  !(last_sub_service = "policy" && strContains check "password_policy")

/-- Embedding of `get_checks_from_input_arn`. -/
def get_checks_from_input_arn (hasModule : String → Bool)
    (recover_checks_from_service : List String → List String)
    (audit_resources : List String) : Except PyError (List String) :=
  if audit_resources = [] then .ok []
  else
    match scanResources hasModule audit_resources scanInit with
    | .error e => .error e
    | .ok st =>
      let checks := recover_checks_from_service st.services
      let selected := checks.foldl
        (fun acc check => if check_selected st.subs st.last_sub_service check then
            addSet acc check
          else acc) []
      .ok (sortStrings selected)

/-- Subservice token as the specification words it: the service itself for
the four flat services, otherwise the underscored first path segment mapped
through the per-service alias table, unlisted tokens passing through. -/
def spec_subservice_token (service raw_sub : String) : String :=
  if service = "guardduty" ∨ service = "kms" ∨ service = "s3" ∨ service = "elb" then
    service
  else if service = "ec2" ∧ raw_sub = "security_group" then "securitygroup"
  else if service = "ec2" ∧ raw_sub = "network_acl" then "networkacl"
  else if service = "ec2" ∧ raw_sub = "image" then "ami"
  else if service = "rds" ∧ raw_sub = "cluster_snapshot" then "snapshot"
  else raw_sub

/-- Registry oracle for the concrete scenarios: iam and awslambda have
check modules. -/
def c3HasModule : String → Bool :=
  fun s => s = "iam" || s = "awslambda"

/-- Registry oracle returning a fixed candidate check list. -/
def c3Recover : List String → List String :=
  fun _ => ["awslambda_function_url_public", "iam_password_policy_minimum_length_14"]

/-- Failing input for the carve-out: the iam policy ARN first, the lambda
ARN last, so the leaked loop variable ends as `function`. -/
def c3Resources : List String :=
  ["arn:aws:iam::111111111111:policy/my-policy",
   "arn:aws:lambda:us-east-1:111111111111:function/my-fn"]

/-! ## get_regions_from_audit_resources (aws_provider.py lines 220-229) -/

/-- The `for resource in audit_resources` loop of lines 223-226:
`resource.split(":")[3]` raises `IndexError` on a short ARN, a non-empty
unseen region is appended. -/
def regionsLoop : List String → List String → Except PyError (List String)
  | [], acc => .ok acc
  | r :: rs, acc =>
    match (pySplit r ':').get? 3 with
    | none => .error .indexError
    | some region =>
      regionsLoop rs (if region ≠ "" ∧ region ∉ acc then acc ++ [region] else acc)

/-- Embedding of `get_regions_from_audit_resources`: `none` is the Python
`None` meaning no narrowing (all regions in scope). -/
def get_regions_from_audit_resources (audit_resources : List String) :
    Except PyError (Option (List String)) :=
  match regionsLoop audit_resources [] with
  | .error e => .error e
  | .ok regs => .ok (if regs = [] then none else some regs)

/-- Region field of an ARN (colon position 3). -/
def region_field (resource : String) : String :=
  (pySplit resource ':').getD 3 ""

/-- Deduplicate keeping the first appearance of each element. -/
def dedup_first (l : List String) : List String :=
  l.foldl (fun acc x => if x ∈ acc then acc else acc ++ [x]) []

/-- Region list as the specification words it: the non-empty region fields,
deduplicated, in order of first appearance. -/
def spec_region_list (resources : List String) : List String :=
  dedup_first ((resources.map region_field).filter (fun r => r ≠ ""))

/-! ## Backup service collector (backup_service.py)

A regional client's observable behaviour for this service is the pages its
paginators yield; `is_resource_filtered` is the external scope filter.  The
per-region workers of `__threading_call__` append into shared lists and are
joined before the constructor returns; the collection is modelled
region-sequentially, which preserves every count and membership fact. -/

/-- One item of a `list_backup_vaults` page. -/
structure VaultConfig where
  BackupVaultArn : String
  BackupVaultName : String
  EncryptionKeyArn : String
  NumberOfRecoveryPoints : Int
  Locked : Bool
  MinRetentionDays : Option Int
  MaxRetentionDays : Option Int
deriving DecidableEq, Repr

/-- The BackupVault record (pydantic model). -/
structure BackupVault where
  arn : String
  name : String
  region : String
  encryption : String
  recovery_points : Int
  locked : Bool
  min_retention_days : Option Int
  max_retention_days : Option Int
deriving DecidableEq, Repr

/-- One item of a `list_backup_plans` page. -/
structure PlanConfig where
  BackupPlanArn : String
  BackupPlanId : String
  BackupPlanName : String
  VersionId : String
  LastExecutionDate : Int
  AdvancedBackupSettings : List String
deriving DecidableEq, Repr

/-- The BackupPlan record (pydantic model). -/
structure BackupPlan where
  arn : String
  id : String
  region : String
  name : String
  version_id : String
  last_execution_date : Int
  advanced_settings : List String
deriving DecidableEq, Repr

/-- One item of the `list_report_plans` response. -/
structure ReportPlanConfig where
  ReportPlanArn : String
  ReportPlanName : String
  LastAttemptedExecutionTime : Int
  LastSuccessfulExecutionTime : Int
deriving DecidableEq, Repr

/-- The BackupReportPlan record (pydantic model). -/
structure BackupReportPlan where
  arn : String
  region : String
  name : String
  last_attempted_execution_date : Int
  last_successful_execution_date : Int
deriving DecidableEq, Repr

/-- A backup regional client: its region tag and the listings it serves. -/
structure BackupRegionalClient where
  region : String
  vault_pages : List (List VaultConfig)
  plan_pages : List (List PlanConfig)
  report_plans : List ReportPlanConfig
deriving DecidableEq, Repr

/-- Conversion of a listed vault into its record (lines 56-73). -/
def vault_of (region : String) (c : VaultConfig) : BackupVault :=
  { arn := c.BackupVaultArn, name := c.BackupVaultName, region := region,
    encryption := c.EncryptionKeyArn, recovery_points := c.NumberOfRecoveryPoints,
    locked := c.Locked, min_retention_days := c.MinRetentionDays,
    max_retention_days := c.MaxRetentionDays }

/-- Conversion of a listed plan into its record (lines 94-108). -/
def plan_of (region : String) (c : PlanConfig) : BackupPlan :=
  { arn := c.BackupPlanArn, id := c.BackupPlanId, region := region,
    name := c.BackupPlanName, version_id := c.VersionId,
    last_execution_date := c.LastExecutionDate,
    advanced_settings := c.AdvancedBackupSettings }

/-- Conversion of a listed report plan into its record (lines 129-141). -/
def report_plan_of (region : String) (c : ReportPlanConfig) : BackupReportPlan :=
  { arn := c.ReportPlanArn, region := region, name := c.ReportPlanName,
    last_attempted_execution_date := c.LastAttemptedExecutionTime,
    last_successful_execution_date := c.LastSuccessfulExecutionTime }

/-- Embedding of `__list_backup_vaults__` for one regional client
(lines 42-78): page through, keep an item when no filter is active or the
filter accepts its ARN. -/
def list_backup_vaults (audit_resources : List String)
    (is_resource_filtered : String → List String → Bool)
    (rc : BackupRegionalClient) : List BackupVault :=
  rc.vault_pages.foldl (fun acc page =>
    page.foldl (fun acc2 c =>
      if audit_resources = [] ∨ is_resource_filtered c.BackupVaultArn audit_resources = true
      then acc2 ++ [vault_of rc.region c] else acc2) acc) []

/-- Embedding of `__list_backup_plans__` for one regional client
(lines 80-113). -/
def list_backup_plans (audit_resources : List String)
    (is_resource_filtered : String → List String → Bool)
    (rc : BackupRegionalClient) : List BackupPlan :=
  rc.plan_pages.foldl (fun acc page =>
    page.foldl (fun acc2 c =>
      if audit_resources = [] ∨ is_resource_filtered c.BackupPlanArn audit_resources = true
      then acc2 ++ [plan_of rc.region c] else acc2) acc) []

/-- Embedding of `__list_backup_report_plans__` for one regional client
(lines 115-146): a single unpaginated response. -/
def list_backup_report_plans (audit_resources : List String)
    (is_resource_filtered : String → List String → Bool)
    (rc : BackupRegionalClient) : List BackupReportPlan :=
  rc.report_plans.foldl (fun acc c =>
    if audit_resources = [] ∨ is_resource_filtered c.ReportPlanArn audit_resources = true
    then acc ++ [report_plan_of rc.region c] else acc) []

/-- Fan-out of one listing operation over every regional client, appends
merged into one shared container. -/
def collect_all {α : Type} (f : BackupRegionalClient → List α)
    (clients : List BackupRegionalClient) : List α :=
  clients.foldl (fun acc c => acc ++ f c) []

/-- Total number of items across a list of pages. -/
def total_items {β : Type} (pages : List (List β)) : Nat :=
  pages.foldl (fun n p => n + p.length) 0

/-- Total vault items across all regions' pages. -/
def total_vault_items (clients : List BackupRegionalClient) : Nat :=
  clients.foldl (fun n c => n + total_items c.vault_pages) 0

/-- Total plan items across all regions' pages. -/
def total_plan_items (clients : List BackupRegionalClient) : Nat :=
  clients.foldl (fun n c => n + total_items c.plan_pages) 0

/-- Total report-plan items across all regions. -/
def total_report_plan_items (clients : List BackupRegionalClient) : Nat :=
  clients.foldl (fun n c => n + c.report_plans.length) 0

/-- The Backup collector's state after construction. -/
structure Backup where
  service : String
  region : String
  backup_vaults : List BackupVault
  backup_plans : List BackupPlan
  backup_report_plans : List BackupReportPlan
deriving DecidableEq, Repr

/-- Embedding of `Backup.__init__` (lines 13-31).  `regional_clients` is
what `generate_regional_clients` returned: `none` when it swallowed an
error and returned `None` (then `.keys()` or `.values()` raises
`AttributeError`); taking the first key of an empty dict raises
`IndexError`. -/
def Backup.build (profile_region : Option String)
    (regional_clients : Option (List (String × BackupRegionalClient)))
    (audit_resources : List String)
    (is_resource_filtered : String → List String → Bool) : Except PyError Backup :=
  match regional_clients with
  | none => .error .attributeError
  | some rcl =>
    match (if pyTruthyStr profile_region then .ok (profile_region.getD "")
           else match rcl with
             | [] => .error PyError.indexError
             | (k, _) :: _ => .ok k : Except PyError String) with
    | .error e => .error e
    | .ok region =>
      let clients := rcl.map Prod.snd
      .ok { service := "backup", region := region,
            backup_vaults := collect_all (list_backup_vaults audit_resources is_resource_filtered) clients,
            backup_plans := collect_all (list_backup_plans audit_resources is_resource_filtered) clients,
            backup_report_plans := collect_all (list_backup_report_plans audit_resources is_resource_filtered) clients }

/-- A sample listed vault. -/
def sampleVaultCfg : VaultConfig :=
  { BackupVaultArn := "arn:aws:backup:us-east-1:111111111111:backup-vault:main",
    BackupVaultName := "main",
    EncryptionKeyArn := "arn:aws:kms:us-east-1:111111111111:key/k",
    NumberOfRecoveryPoints := 2, Locked := true,
    MinRetentionDays := some 7, MaxRetentionDays := none }

/-- A sample listed plan. -/
def samplePlanCfg : PlanConfig :=
  { BackupPlanArn := "arn:aws:backup:us-east-1:111111111111:backup-plan:p1",
    BackupPlanId := "p1", BackupPlanName := "daily", VersionId := "v1",
    LastExecutionDate := 1700000000, AdvancedBackupSettings := [] }

/-- A sample listed report plan. -/
def sampleReportCfg : ReportPlanConfig :=
  { ReportPlanArn := "arn:aws:backup:us-east-1:111111111111:report-plan:r1",
    ReportPlanName := "r1", LastAttemptedExecutionTime := 1700000100,
    LastSuccessfulExecutionTime := 1700000100 }

/-- A sample regional client for us-east-1 serving one item per listing. -/
def sampleClient : BackupRegionalClient :=
  { region := "us-east-1", vault_pages := [[sampleVaultCfg]],
    plan_pages := [[samplePlanCfg]], report_plans := [sampleReportCfg] }

/-- A scope filter by exact ARN membership. -/
def sampleFilter : String → List String → Bool :=
  fun arn l => decide (arn ∈ l)

/-- The collector built over the sample client with no inclusion filter. -/
def sampleBuilt : Backup :=
  (Backup.build (some "us-east-1") (some [("us-east-1", sampleClient)]) []
    sampleFilter).toOption.getD
    { service := "", region := "", backup_vaults := [], backup_plans := [],
      backup_report_plans := [] }

/-- The collector built over the sample client with an ARN filter naming
only the sample vault. -/
def sampleBuiltFiltered : Backup :=
  (Backup.build (some "us-east-1") (some [("us-east-1", sampleClient)])
    ["arn:aws:backup:us-east-1:111111111111:backup-vault:main"]
    sampleFilter).toOption.getD
    { service := "", region := "", backup_vaults := [], backup_plans := [],
      backup_report_plans := [] }

/-! ## General lemmas -/

/-- Membership in an `addSet` extension comes from the old set or is the
new element. -/
theorem mem_addSet (l : List String) (x s : String) (h : s ∈ addSet l x) :
    s ∈ l ∨ s = x := by
  unfold addSet at h
  split at h
  · exact Or.inl h
  · rcases List.mem_append.mp h with h1 | h2
    · exact Or.inl h1
    · exact Or.inr (List.mem_singleton.mp h2)

/-- The client loop returns `None` as soon as any listed region fails to
instantiate. -/
theorem buildClientsLoop_none_of_error (service : String)
    (mk : String → Except PyError Unit) :
    ∀ (l : List String) (acc : List (String × RegionalClient)),
      (∃ r, r ∈ l ∧ ∃ e, mk r = .error e) →
      buildClientsLoop service mk l acc = none := by
  intro l
  induction l with
  | nil =>
    rintro acc ⟨r, hr, _⟩
    cases hr
  | cons a as ih =>
    rintro acc ⟨r, hr, e, he⟩
    rcases List.mem_cons.mp hr with rfl | hmem
    · simp [buildClientsLoop, he]
    · cases hmk : mk a with
      | error e2 => simp [buildClientsLoop, hmk]
      | ok u => simpa [buildClientsLoop, hmk] using ih _ ⟨r, hmem, e, he⟩

/-- The client loop on an all-successful instantiation function returns the
accumulated mapping extended by one entry per region. -/
theorem buildClientsLoop_ok (service : String) (mk : String → Except PyError Unit)
    (hmk : ∀ r, mk r = .ok ()) :
    ∀ (l : List String) (acc : List (String × RegionalClient)),
      buildClientsLoop service mk l acc =
        some (acc ++ l.map (fun r => (r, { service := service, region := r }))) := by
  intro l
  induction l with
  | nil => intro acc; simp [buildClientsLoop]
  | cons a as ih =>
    intro acc
    simp [buildClientsLoop, hmk a, ih]

/-- For a non-empty effective list the global collapse keeps exactly the
selected region. -/
theorem global_region_selection_eq (regions : List String) (profile_region : Option String)
    (h : regions ≠ []) :
    global_region_selection regions profile_region =
      [selected_global_region regions profile_region] := by
  unfold global_region_selection selected_global_region
  rw [if_pos h]
  cases hmem : pyMemOpt profile_region regions with
  | true => simp
  | false =>
    cases regions with
    | nil => exact absurd rfl h
    | cons a as => simp

/-! ## C1: failure isolation in generate_regional_clients -/

/-- C1 (amended): if instantiating the client for any region of the final
region list raises, the exception is caught by the function-level handler
and `generate_regional_clients` returns `None`: no mapping at all, so the
failure of a single region discards the clients of every other region. -/
theorem c1_single_region_failure_discards_all
    (service : String) (json_regions audited_regions : List String)
    (profile_region : Option String)
    (intersectOrder : List String → List String → List String)
    (mkClient : String → Except PyError Unit) (global_service : Bool)
    (h : ∃ r, r ∈ (if global_service then
            global_region_selection
              (effective_regions intersectOrder json_regions audited_regions) profile_region
          else effective_regions intersectOrder json_regions audited_regions) ∧
          ∃ e, mkClient r = .error e) :
    generate_regional_clients service (some json_regions) audited_regions profile_region
      intersectOrder mkClient global_service = none := by
  unfold generate_regional_clients
  exact buildClientsLoop_none_of_error service mkClient _ [] h

/-- Witness for C1 at a concrete input: catalog regions us-east-1 and
eu-west-1, instantiation failing only in us-east-1, and the whole call
returns `None`. -/
theorem c1_witness :
    generate_regional_clients "ec2" (some ["us-east-1", "eu-west-1"]) [] none
      (fun a _ => a) mkFailUsEast false = none :=
  c1_single_region_failure_discards_all "ec2" ["us-east-1", "eu-west-1"] [] none
    (fun a _ => a) mkFailUsEast false
    ⟨"us-east-1", by decide, PyError.clientError, rfl⟩

/-- C1 counterexample: with effective regions us-east-1 and eu-west-1 and
only us-east-1 failing, the returned value is `None` while eu-west-1's
client instantiation would have succeeded — no mapping containing the
other regions is returned. -/
theorem c1_counterexample :
    generate_regional_clients "ec2" (some ["us-east-1", "eu-west-1"]) [] none
      (fun a _ => a) mkFailUsEast false = none ∧
    mkFailUsEast "eu-west-1" = .ok () ∧
    mkFailUsEast "us-east-1" = .error .clientError := by
  refine ⟨by decide, rfl, rfl⟩

/-! ## C2: behaviour of a failing credential refresh -/

/-- C2 (amended): a failure of the STS exchange during a credential refresh
is caught inside `assume_role`, exactly like a failure during the initial
assumption, and terminates the process with exit status 1; it does not
propagate as an exception to the caller of the in-flight API call. -/
theorem c2_refresh_failure_exits
    (sts : AssumeRoleCall → Except PyError StsCredentials) (info : AWS_Assume_Role)
    (e : PyError) (h : sts (assume_role_call info) = .error e) :
    AWS_Provider.refresh sts info = .exited 1 ∧ assume_role sts info = .exited 1 := by
  unfold AWS_Provider.refresh assume_role
  rw [h]
  exact ⟨rfl, rfl⟩

/-- Witness for C2: a concrete STS endpoint whose calls all fail makes
`refresh` terminate the process. -/
theorem c2_witness :
    AWS_Provider.refresh stsAlwaysFails sampleRole = .exited 1 ∧
    assume_role stsAlwaysFails sampleRole = .exited 1 :=
  c2_refresh_failure_exits stsAlwaysFails sampleRole PyError.clientError rfl

/-- C2 counterexample: at a concrete failing STS exchange, `refresh` ends
in `sys.exit(1)`, not in an exception raised to the in-flight caller. -/
theorem c2_counterexample :
    AWS_Provider.refresh stsAlwaysFails sampleRole = .exited 1 ∧
    AWS_Provider.refresh stsAlwaysFails sampleRole ≠ .raised .clientError := by
  refine ⟨by decide, by decide⟩

/-! ## C4: global-service region collapse -/

/-- C4 (amended): with `isGlobal=true` and a non-empty effective list the
mapping has exactly one entry, whose region is the profile region whenever
that is in the effective list and otherwise the head of the effective list
as the code computed it; with no allow-list that list is the catalog list,
while with an allow-list it is a set intersection in unspecified iteration
order.  An empty effective list builds no client. -/
theorem c4_global_single_region
    (service : String) (json_regions audited_regions : List String)
    (profile_region : Option String)
    (intersectOrder : List String → List String → List String)
    (mkClient : String → Except PyError Unit)
    (hmk : ∀ r, mkClient r = .ok ()) :
    (effective_regions intersectOrder json_regions audited_regions ≠ [] →
      generate_regional_clients service (some json_regions) audited_regions profile_region
          intersectOrder mkClient true =
        some [(selected_global_region
                 (effective_regions intersectOrder json_regions audited_regions) profile_region,
               { service := service,
                 region := selected_global_region
                   (effective_regions intersectOrder json_regions audited_regions)
                   profile_region })]) ∧
    (effective_regions intersectOrder json_regions audited_regions = [] →
      generate_regional_clients service (some json_regions) audited_regions profile_region
          intersectOrder mkClient true = some []) ∧
    (pyMemOpt profile_region (effective_regions intersectOrder json_regions audited_regions) = true →
      selected_global_region (effective_regions intersectOrder json_regions audited_regions)
          profile_region = profile_region.getD "") ∧
    (audited_regions = [] →
      effective_regions intersectOrder json_regions audited_regions = json_regions) := by
  refine ⟨?_, ?_, ?_, ?_⟩
  · intro hne
    show buildClientsLoop service mkClient
      (global_region_selection
        (effective_regions intersectOrder json_regions audited_regions) profile_region) [] = _
    rw [global_region_selection_eq _ _ hne]
    rw [buildClientsLoop_ok service mkClient hmk]
    simp
  · intro hemp
    show buildClientsLoop service mkClient
      (global_region_selection
        (effective_regions intersectOrder json_regions audited_regions) profile_region) [] = _
    rw [hemp]
    rfl
  · intro hmem
    unfold selected_global_region
    rw [hmem]
    rfl
  · intro hemp
    subst hemp
    rfl

/-- Witness for C4 at the specification's concrete scenario: catalog
regions us-east-1 and eu-west-1, profile region eu-west-1, empty
allow-list — exactly one client, for eu-west-1. -/
theorem c4_witness :
    (effective_regions (fun a _ => a) ["us-east-1", "eu-west-1"] [] ≠ [] →
      generate_regional_clients "s3" (some ["us-east-1", "eu-west-1"]) []
          (some "eu-west-1") (fun a _ => a) mkAllOk true =
        some [(selected_global_region
                 (effective_regions (fun a _ => a) ["us-east-1", "eu-west-1"] [])
                 (some "eu-west-1"),
               { service := "s3",
                 region := selected_global_region
                   (effective_regions (fun a _ => a) ["us-east-1", "eu-west-1"] [])
                   (some "eu-west-1") })]) ∧
    (effective_regions (fun a _ => a) ["us-east-1", "eu-west-1"] [] = [] →
      generate_regional_clients "s3" (some ["us-east-1", "eu-west-1"]) []
          (some "eu-west-1") (fun a _ => a) mkAllOk true = some []) ∧
    (pyMemOpt (some "eu-west-1")
        (effective_regions (fun a _ => a) ["us-east-1", "eu-west-1"] []) = true →
      selected_global_region (effective_regions (fun a _ => a) ["us-east-1", "eu-west-1"] [])
          (some "eu-west-1") = (some "eu-west-1").getD "") ∧
    (([] : List String) = [] →
      effective_regions (fun a _ => a) ["us-east-1", "eu-west-1"] [] =
        ["us-east-1", "eu-west-1"]) :=
  c4_global_single_region "s3" ["us-east-1", "eu-west-1"] [] (some "eu-west-1")
    (fun a _ => a) mkAllOk (fun _ => rfl)

/-- C4 counterexample: with an allow-list, the effective list is a set
intersection whose iteration order is unconstrained; under a legitimate
order (here the reverse of catalog order, containing exactly the two
common regions) the single returned region is eu-west-1, not the first
effective region in catalog order, us-east-1. -/
theorem c4_counterexample :
    generate_regional_clients "s3" (some ["us-east-1", "eu-west-1"])
        ["eu-west-1", "us-east-1"] (some "ap-south-1") interRevFilter mkAllOk true =
      some [("eu-west-1", { service := "s3", region := "eu-west-1" })] ∧
    interRevFilter ["us-east-1", "eu-west-1"] ["eu-west-1", "us-east-1"] =
      ["eu-west-1", "us-east-1"] ∧
    ("eu-west-1" : String) ≠ "us-east-1" := by
  refine ⟨rfl, rfl, by decide⟩

/-! ## C3: the password_policy carve-out reads a leaked loop variable -/

/-- C3: on the failing input (iam policy ARN first, lambda ARN last) the
derived token set is made of policy and function, the leaked loop variable
ends as function, and the carve-out never fires: the returned check list
contains `iam_password_policy_minimum_length_14` although its name contains
`password_policy`, the token policy matches it, and no other token does
(`function` is not a substring of it). -/
theorem c3_password_policy_carveout_bypassed :
    get_checks_from_input_arn c3HasModule c3Recover c3Resources =
      .ok ["awslambda_function_url_public", "iam_password_policy_minimum_length_14"] ∧
    scanResources c3HasModule c3Resources scanInit =
      .ok { services := ["iam", "awslambda"], subs := ["policy", "function"],
            last_sub_service := "function" } ∧
    strContains "iam_password_policy_minimum_length_14" "password_policy" = true ∧
    strContains "iam_password_policy_minimum_length_14" "policy" = true ∧
    strContains "iam_password_policy_minimum_length_14" "function" = false := by
  refine ⟨rfl, rfl, rfl, rfl, rfl⟩

/-! ## C5 and C6: service normalization and subservice tokens -/

/-- Service normalization never outputs a raw alias token, and outputs a
WAF token only for a WAF input. -/
theorem normalize_service_not_alias (t : String) (h1 : t ≠ "waf") (h2 : t ≠ "wafv2") :
    normalize_service t ∉ ["lambda", "elasticloadbalancing", "logs", "waf", "wafv2"] := by
  by_cases hl : t = "lambda"
  · subst hl; decide
  by_cases he : t = "elasticloadbalancing"
  · subst he; decide
  by_cases hg : t = "logs"
  · subst hg; decide
  have hid : normalize_service t = t := by
    simp [normalize_service, hl, he, hg]
  rw [hid]
  simp [hl, he, hg, h1, h2]

/-- One scan step preserves the service-set invariant: every member has a
check module and is a normalized, non-WAF token. -/
theorem processResource_services_good (hM : String → Bool) (st : ScanState) (r : String)
    (st2 : ScanState) (h : processResource hM st r = Except.ok st2)
    (inv : ∀ s ∈ st.services,
      hM s = true ∧ s ∉ ["lambda", "elasticloadbalancing", "logs", "waf", "wafv2"]) :
    ∀ s ∈ st2.services,
      hM s = true ∧ s ∉ ["lambda", "elasticloadbalancing", "logs", "waf", "wafv2"] := by
  simp only [processResource] at h
  split at h
  · cases h
  · split at h
    · cases h
      exact inv
    · next hnw =>
      push_neg at hnw
      split at h <;>
      · cases h
        intro s hs
        split at hs
        · next hT =>
          rcases mem_addSet _ _ _ hs with hold | heq
          · exact inv s hold
          · subst heq
            exact ⟨hT, normalize_service_not_alias _ hnw.2 hnw.1⟩
        · exact inv s hs

/-- The whole scan preserves the service-set invariant. -/
theorem scanResources_services_good (hM : String → Bool) :
    ∀ (resources : List String) (st st2 : ScanState),
      scanResources hM resources st = .ok st2 →
      (∀ s ∈ st.services,
        hM s = true ∧ s ∉ ["lambda", "elasticloadbalancing", "logs", "waf", "wafv2"]) →
      ∀ s ∈ st2.services,
        hM s = true ∧ s ∉ ["lambda", "elasticloadbalancing", "logs", "waf", "wafv2"] := by
  intro resources
  induction resources with
  | nil =>
    intro st st2 h inv
    simp only [scanResources] at h
    cases h
    exact inv
  | cons a as ih =>
    intro st st2 h inv
    simp only [scanResources] at h
    cases hp : processResource hM st a with
    | error e =>
      rw [hp] at h
      cases h
    | ok stx =>
      rw [hp] at h
      exact ih stx st2 h (processResource_services_good hM st a stx hp inv)

/-- C5: the derived service set holds only tokens with a registered check
module, never a raw alias token and never a WAF token; a WAF ARN leaves
both sets untouched; and on the specification's concrete ARN pair the
service set is exactly awslambda. -/
theorem c5_service_set_normalized :
    (∀ (hM : String → Bool) (resources : List String) (st2 : ScanState),
        scanResources hM resources scanInit = .ok st2 →
        ∀ s ∈ st2.services,
          hM s = true ∧ s ∉ ["lambda", "elasticloadbalancing", "logs", "waf", "wafv2"]) ∧
    (∀ (hM : String → Bool) (st st2 : ScanState) (resource : String),
        (raw_service_token resource = "waf" ∨ raw_service_token resource = "wafv2") →
        processResource hM st resource = .ok st2 →
        st2.services = st.services ∧ st2.subs = st.subs) ∧
    scanResources c3HasModule
        ["arn:aws:lambda:us-east-1:111111111111:function/my-fn",
         "arn:aws:waf:us-east-1:111111111111:webacl/abc"] scanInit =
      .ok { services := ["awslambda"], subs := ["function"],
            last_sub_service := "webacl" } := by
  refine ⟨?_, ?_, rfl⟩
  · intro hM resources st2 h
    exact scanResources_services_good hM resources scanInit st2 h (by intro s hs; cases hs)
  · intro hM st st2 resource hwaf h
    simp only [processResource] at h
    split at h
    · cases h
    · split at h
      · cases h
        exact ⟨rfl, rfl⟩
      · next hnw =>
        exact absurd (by tauto) hnw

/-- The subservice alias table applied by the code coincides, off the four
flat services, with the specification's alias table. -/
theorem parse_sub_service_spec (service raw : String)
    (h : ¬(service = "guardduty" ∨ service = "kms" ∨ service = "s3" ∨ service = "elb")) :
    parse_sub_service service raw = spec_subservice_token service raw := by
  simp only [parse_sub_service, spec_subservice_token]
  rw [if_neg h]
  split_ifs <;> simp_all

/-- C6: for every well-formed non-WAF ARN, the token added to the
subservice set is the service itself for the four flat services and
otherwise the underscored first path segment mapped through the per-service
alias table. -/
theorem c6_subservice_token (hM : String → Bool) (st : ScanState) (resource : String)
    (h6 : ¬ (pySplit resource ':').length < 6)
    (hw : ¬ (raw_service_token resource = "wafv2" ∨ raw_service_token resource = "waf")) :
    (processResource hM st resource).map ScanState.subs =
      .ok (addSet st.subs (spec_subservice_token
        (normalize_service (raw_service_token resource))
        (raw_sub_service_token resource))) := by
  simp only [processResource]
  rw [if_neg h6, if_neg hw]
  by_cases hflat :
      normalize_service (raw_service_token resource) ∈ services_without_subservices
  · rw [if_pos hflat]
    have h4 : normalize_service (raw_service_token resource) = "guardduty" ∨
        normalize_service (raw_service_token resource) = "kms" ∨
        normalize_service (raw_service_token resource) = "s3" ∨
        normalize_service (raw_service_token resource) = "elb" := by
      simpa [services_without_subservices] using hflat
    simp only [spec_subservice_token]
    rw [if_pos h4]
    rfl
  · rw [if_neg hflat]
    have hnf : ¬(normalize_service (raw_service_token resource) = "guardduty" ∨
        normalize_service (raw_service_token resource) = "kms" ∨
        normalize_service (raw_service_token resource) = "s3" ∨
        normalize_service (raw_service_token resource) = "elb") := by
      simpa [services_without_subservices] using hflat
    rw [parse_sub_service_spec _ _ hnf]
    rfl

/-- Witness for C6 at the specification's concrete scenario: the EC2 ARN
with resource path security-group/sg-123 contributes the post-alias token
securitygroup. -/
theorem c6_witness :
    (processResource (fun _ => true) scanInit
        "arn:aws:ec2:us-east-1:111111111111:security-group/sg-123").map ScanState.subs =
      .ok (addSet scanInit.subs (spec_subservice_token
        (normalize_service
          (raw_service_token "arn:aws:ec2:us-east-1:111111111111:security-group/sg-123"))
        (raw_sub_service_token
          "arn:aws:ec2:us-east-1:111111111111:security-group/sg-123"))) ∧
    spec_subservice_token
        (normalize_service
          (raw_service_token "arn:aws:ec2:us-east-1:111111111111:security-group/sg-123"))
        (raw_sub_service_token "arn:aws:ec2:us-east-1:111111111111:security-group/sg-123") =
      "securitygroup" :=
  ⟨c6_subservice_token (fun _ => true) scanInit
      "arn:aws:ec2:us-east-1:111111111111:security-group/sg-123"
      (by decide) (by decide), by decide⟩

/-! ## C7: regions from audit resources -/

/-- In a list with at least four fields, position 3 exists and equals the
defaulted lookup. -/
theorem get?_three_of_len (l : List String) (h : 4 ≤ l.length) :
    l.get? 3 = some (l.getD 3 "") := by
  rw [List.getD_eq_getElem?_getD, List.get?_eq_getElem?]
  cases hx : l[3]? with
  | none =>
    rw [List.getElem?_eq_none_iff] at hx
    omega
  | some v => rfl

/-- The regions loop equals folding the first-appearance dedup step over
the non-empty region fields. -/
theorem regionsLoop_spec :
    ∀ (resources : List String) (acc : List String),
      (∀ r ∈ resources, 4 ≤ (pySplit r ':').length) →
      regionsLoop resources acc =
        .ok (((resources.map region_field).filter (fun x => x ≠ "")).foldl
          (fun acc x => if x ∈ acc then acc else acc ++ [x]) acc) := by
  intro resources
  induction resources with
  | nil =>
    intro acc h
    rfl
  | cons a as ih =>
    intro acc h
    have h4 : 4 ≤ (pySplit a ':').length := h a (by simp)
    have hx : (pySplit a ':').get? 3 = some (region_field a) :=
      get?_three_of_len _ h4
    have hrest : ∀ r ∈ as, 4 ≤ (pySplit r ':').length :=
      fun r hr => h r (List.mem_cons_of_mem a hr)
    simp only [regionsLoop]
    rw [hx]
    show regionsLoop as
        (if region_field a ≠ "" ∧ region_field a ∉ acc then acc ++ [region_field a]
         else acc) = _
    by_cases hbe : region_field a = ""
    · rw [if_neg (by simp [hbe])]
      rw [ih acc hrest]
      simp [List.filter_cons, hbe]
    · by_cases hmem : region_field a ∈ acc
      · rw [if_neg (by simp [hmem])]
        rw [ih acc hrest]
        simp [List.filter_cons, hbe, hmem]
      · rw [if_pos ⟨hbe, hmem⟩]
        rw [ih (acc ++ [region_field a]) hrest]
        simp [List.filter_cons, hbe, hmem]

/-- C7: the returned region list is exactly the non-empty region fields of
the ARNs, deduplicated in order of first appearance, and `None` (all
regions in scope) when no ARN contributes a region. -/
theorem c7_regions_first_appearance (resources : List String)
    (h : ∀ r ∈ resources, 4 ≤ (pySplit r ':').length) :
    get_regions_from_audit_resources resources =
      .ok (if spec_region_list resources = [] then none
           else some (spec_region_list resources)) := by
  unfold get_regions_from_audit_resources
  rw [regionsLoop_spec resources [] h]
  rfl

/-- Witness for C7: a global-service ARN with an empty region field
contributes nothing and the two regional ARNs contribute one deduplicated
region. -/
theorem c7_witness :
    get_regions_from_audit_resources
        ["arn:aws:iam::111111111111:policy/my-policy",
         "arn:aws:lambda:us-east-1:111111111111:function/my-fn",
         "arn:aws:ec2:us-east-1:111111111111:security-group/sg-123"] =
      .ok (if spec_region_list
              ["arn:aws:iam::111111111111:policy/my-policy",
               "arn:aws:lambda:us-east-1:111111111111:function/my-fn",
               "arn:aws:ec2:us-east-1:111111111111:security-group/sg-123"] = [] then none
           else some (spec_region_list
              ["arn:aws:iam::111111111111:policy/my-policy",
               "arn:aws:lambda:us-east-1:111111111111:function/my-fn",
               "arn:aws:ec2:us-east-1:111111111111:security-group/sg-123"])) :=
  c7_regions_first_appearance _ (by decide)

/-! ## C8, C9, C10: the Backup collector -/

/-- Membership in a conditional-append fold over one item list. -/
theorem mem_foldl_appendIf {α β : Type} (P : β → Prop) [DecidablePred P] (g : β → α) :
    ∀ (l : List β) (acc : List α) (v : α),
      v ∈ l.foldl (fun a b => if P b then a ++ [g b] else a) acc ↔
        v ∈ acc ∨ ∃ b, b ∈ l ∧ P b ∧ v = g b := by
  intro l
  induction l with
  | nil => simp
  | cons x xs ih =>
    intro acc v
    rw [List.foldl_cons, ih]
    by_cases hx : P x
    · rw [if_pos hx]
      simp only [List.mem_append, List.mem_cons, List.mem_singleton, exists_eq_or_imp, hx]
      tauto
    · rw [if_neg hx]
      simp only [List.mem_cons, exists_eq_or_imp, hx]
      tauto

/-- Length of a conditional-append fold whose condition always holds. -/
theorem length_foldl_appendIf {α β : Type} (P : β → Prop) [DecidablePred P] (g : β → α) :
    ∀ (l : List β) (acc : List α), (∀ b ∈ l, P b) →
      (l.foldl (fun a b => if P b then a ++ [g b] else a) acc).length =
        acc.length + l.length := by
  intro l
  induction l with
  | nil =>
    intro acc h
    simp
  | cons x xs ih =>
    intro acc h
    rw [List.foldl_cons, if_pos (h x (by simp)), ih _ (fun b hb => h b (by simp [hb]))]
    simp
    omega

/-- Membership in the two-level page fold. -/
theorem mem_pages_fold {α β : Type} (P : β → Prop) [DecidablePred P] (g : β → α) :
    ∀ (pages : List (List β)) (acc : List α) (v : α),
      v ∈ pages.foldl (fun a page =>
          page.foldl (fun a2 b => if P b then a2 ++ [g b] else a2) a) acc ↔
        v ∈ acc ∨ ∃ page, page ∈ pages ∧ ∃ b, b ∈ page ∧ P b ∧ v = g b := by
  intro pages
  induction pages with
  | nil => simp
  | cons p ps ih =>
    intro acc v
    rw [List.foldl_cons, ih, mem_foldl_appendIf]
    constructor
    · rintro ((hacc | ⟨b, hb, hPb, hvb⟩) | ⟨page, hpage, b, hb, hPb, hvb⟩)
      · exact Or.inl hacc
      · exact Or.inr ⟨p, by simp, b, hb, hPb, hvb⟩
      · exact Or.inr ⟨page, by simp [hpage], b, hb, hPb, hvb⟩
    · rintro (hacc | ⟨page, hpage, b, hb, hPb, hvb⟩)
      · exact Or.inl (Or.inl hacc)
      · rcases List.mem_cons.mp hpage with rfl | hps
        · exact Or.inl (Or.inr ⟨b, hb, hPb, hvb⟩)
        · exact Or.inr ⟨page, hps, b, hb, hPb, hvb⟩

/-- A running Nat fold of added weights shifts with its start value. -/
theorem foldl_add_shift {γ : Type} (k : γ → Nat) :
    ∀ (l : List γ) (n : Nat),
      l.foldl (fun m c => m + k c) n = n + l.foldl (fun m c => m + k c) 0 := by
  intro l
  induction l with
  | nil =>
    intro n
    simp
  | cons c cs ih =>
    intro n
    rw [List.foldl_cons, List.foldl_cons, ih, ih (0 + k c)]
    omega

/-- Length of the two-level page fold whose condition always holds. -/
theorem length_pages_fold {α β : Type} (P : β → Prop) [DecidablePred P] (g : β → α) :
    ∀ (pages : List (List β)) (acc : List α),
      (∀ page ∈ pages, ∀ b ∈ page, P b) →
      (pages.foldl (fun a page =>
          page.foldl (fun a2 b => if P b then a2 ++ [g b] else a2) a) acc).length =
        acc.length + total_items pages := by
  intro pages
  induction pages with
  | nil =>
    intro acc h
    simp [total_items]
  | cons p ps ih =>
    intro acc h
    rw [List.foldl_cons, ih _ (fun q hq => h q (by simp [hq]))]
    rw [length_foldl_appendIf P g p acc (h p (by simp))]
    have ht : total_items (p :: ps) = p.length + total_items ps := by
      unfold total_items
      rw [List.foldl_cons, foldl_add_shift (fun q : List β => q.length)]
      omega
    rw [ht]
    omega

/-- Membership across the per-region fan-out. -/
theorem mem_collect_all {α : Type} (f : BackupRegionalClient → List α) :
    ∀ (clients : List BackupRegionalClient) (v : α),
      v ∈ collect_all f clients ↔ ∃ c, c ∈ clients ∧ v ∈ f c := by
  have aux : ∀ (clients : List BackupRegionalClient) (acc : List α) (v : α),
      v ∈ clients.foldl (fun a c => a ++ f c) acc ↔
        v ∈ acc ∨ ∃ c, c ∈ clients ∧ v ∈ f c := by
    intro clients
    induction clients with
    | nil => simp
    | cons c cs ih =>
      intro acc v
      rw [List.foldl_cons, ih]
      simp only [List.mem_append, List.mem_cons, exists_eq_or_imp]
      tauto
  intro clients v
  rw [collect_all, aux]
  simp

/-- Length across the per-region fan-out. -/
theorem collect_all_length {α : Type} (f : BackupRegionalClient → List α) :
    ∀ (clients : List BackupRegionalClient),
      (collect_all f clients).length =
        clients.foldl (fun n c => n + (f c).length) 0 := by
  have aux : ∀ (clients : List BackupRegionalClient) (acc : List α),
      (clients.foldl (fun a c => a ++ f c) acc).length =
        acc.length + clients.foldl (fun n c => n + (f c).length) 0 := by
    intro clients
    induction clients with
    | nil => simp
    | cons c cs ih =>
      intro acc
      rw [List.foldl_cons, ih, List.foldl_cons,
        foldl_add_shift (fun c => (f c).length) cs ((0 : Nat) + (f c).length)]
      simp
      omega
  intro clients
  rw [collect_all, aux]
  simp

/-- Characterization of the per-region vault listing. -/
theorem mem_list_backup_vaults (l : List String) (isF : String → List String → Bool)
    (rc : BackupRegionalClient) (v : BackupVault) :
    v ∈ list_backup_vaults l isF rc ↔
      ∃ page, page ∈ rc.vault_pages ∧ ∃ c, c ∈ page ∧
        (l = [] ∨ isF c.BackupVaultArn l = true) ∧ v = vault_of rc.region c := by
  unfold list_backup_vaults
  rw [mem_pages_fold (fun c => l = [] ∨ isF c.BackupVaultArn l = true)
      (fun c => vault_of rc.region c)]
  simp

/-- Characterization of the per-region plan listing. -/
theorem mem_list_backup_plans (l : List String) (isF : String → List String → Bool)
    (rc : BackupRegionalClient) (p : BackupPlan) :
    p ∈ list_backup_plans l isF rc ↔
      ∃ page, page ∈ rc.plan_pages ∧ ∃ c, c ∈ page ∧
        (l = [] ∨ isF c.BackupPlanArn l = true) ∧ p = plan_of rc.region c := by
  unfold list_backup_plans
  rw [mem_pages_fold (fun c => l = [] ∨ isF c.BackupPlanArn l = true)
      (fun c => plan_of rc.region c)]
  simp

/-- Characterization of the per-region report-plan listing. -/
theorem mem_list_backup_report_plans (l : List String) (isF : String → List String → Bool)
    (rc : BackupRegionalClient) (rp : BackupReportPlan) :
    rp ∈ list_backup_report_plans l isF rc ↔
      ∃ c, c ∈ rc.report_plans ∧
        (l = [] ∨ isF c.ReportPlanArn l = true) ∧ rp = report_plan_of rc.region c := by
  unfold list_backup_report_plans
  rw [mem_foldl_appendIf (fun c => l = [] ∨ isF c.ReportPlanArn l = true)
      (fun c => report_plan_of rc.region c)]
  simp

/-- A successful construction fixes the three containers as the fan-out
over the dict's values. -/
theorem Backup.build_ok (pr : Option String) (rcl : List (String × BackupRegionalClient))
    (l : List String) (isF : String → List String → Bool) (b : Backup)
    (hb : Backup.build pr (some rcl) l isF = .ok b) :
    b.backup_vaults = collect_all (list_backup_vaults l isF) (rcl.map Prod.snd) ∧
    b.backup_plans = collect_all (list_backup_plans l isF) (rcl.map Prod.snd) ∧
    b.backup_report_plans = collect_all (list_backup_report_plans l isF) (rcl.map Prod.snd) := by
  simp only [Backup.build] at hb
  split at hb
  · cases hb
  · cases hb
    exact ⟨rfl, rfl, rfl⟩

/-- Every vault kept by one region's listing passes a non-empty filter. -/
theorem list_backup_vaults_filtered (l : List String) (isF : String → List String → Bool)
    (rc : BackupRegionalClient) (v : BackupVault) (hl : l ≠ [])
    (hv : v ∈ list_backup_vaults l isF rc) : isF v.arn l = true := by
  rw [mem_list_backup_vaults] at hv
  obtain ⟨page, hpage, c, hc, hcond, rfl⟩ := hv
  rcases hcond with h0 | hT
  · exact absurd h0 hl
  · exact hT

/-- Every plan kept by one region's listing passes a non-empty filter. -/
theorem list_backup_plans_filtered (l : List String) (isF : String → List String → Bool)
    (rc : BackupRegionalClient) (p : BackupPlan) (hl : l ≠ [])
    (hp : p ∈ list_backup_plans l isF rc) : isF p.arn l = true := by
  rw [mem_list_backup_plans] at hp
  obtain ⟨page, hpage, c, hc, hcond, rfl⟩ := hp
  rcases hcond with h0 | hT
  · exact absurd h0 hl
  · exact hT

/-- Every report plan kept by one region's listing passes a non-empty
filter. -/
theorem list_backup_report_plans_filtered (l : List String)
    (isF : String → List String → Bool) (rc : BackupRegionalClient)
    (rp : BackupReportPlan) (hl : l ≠ [])
    (hrp : rp ∈ list_backup_report_plans l isF rc) : isF rp.arn l = true := by
  rw [mem_list_backup_report_plans] at hrp
  obtain ⟨c, hc, hcond, rfl⟩ := hrp
  rcases hcond with h0 | hT
  · exact absurd h0 hl
  · exact hT

/-- A vault record carries the region of the client that produced it. -/
theorem list_backup_vaults_region (l : List String) (isF : String → List String → Bool)
    (rc : BackupRegionalClient) (v : BackupVault)
    (hv : v ∈ list_backup_vaults l isF rc) : v.region = rc.region := by
  rw [mem_list_backup_vaults] at hv
  obtain ⟨page, hpage, c, hc, hcond, rfl⟩ := hv
  rfl

/-- A plan record carries the region of the client that produced it. -/
theorem list_backup_plans_region (l : List String) (isF : String → List String → Bool)
    (rc : BackupRegionalClient) (p : BackupPlan)
    (hp : p ∈ list_backup_plans l isF rc) : p.region = rc.region := by
  rw [mem_list_backup_plans] at hp
  obtain ⟨page, hpage, c, hc, hcond, rfl⟩ := hp
  rfl

/-- A report-plan record carries the region of the client that produced
it. -/
theorem list_backup_report_plans_region (l : List String)
    (isF : String → List String → Bool) (rc : BackupRegionalClient)
    (rp : BackupReportPlan) (hrp : rp ∈ list_backup_report_plans l isF rc) :
    rp.region = rc.region := by
  rw [mem_list_backup_report_plans] at hrp
  obtain ⟨c, hc, hcond, rfl⟩ := hrp
  rfl

/-- Without a filter one region's vault listing keeps every item. -/
theorem list_backup_vaults_length (isF : String → List String → Bool)
    (rc : BackupRegionalClient) :
    (list_backup_vaults [] isF rc).length = total_items rc.vault_pages := by
  unfold list_backup_vaults
  rw [length_pages_fold (fun c => ([] : List String) = [] ∨ isF c.BackupVaultArn [] = true)
      (fun c => vault_of rc.region c) rc.vault_pages []
      (fun page hp b hb => Or.inl rfl)]
  simp

/-- Without a filter one region's plan listing keeps every item. -/
theorem list_backup_plans_length (isF : String → List String → Bool)
    (rc : BackupRegionalClient) :
    (list_backup_plans [] isF rc).length = total_items rc.plan_pages := by
  unfold list_backup_plans
  rw [length_pages_fold (fun c => ([] : List String) = [] ∨ isF c.BackupPlanArn [] = true)
      (fun c => plan_of rc.region c) rc.plan_pages []
      (fun page hp b hb => Or.inl rfl)]
  simp

/-- Without a filter one region's report-plan listing keeps every item. -/
theorem list_backup_report_plans_length (isF : String → List String → Bool)
    (rc : BackupRegionalClient) :
    (list_backup_report_plans [] isF rc).length = rc.report_plans.length := by
  unfold list_backup_report_plans
  rw [length_foldl_appendIf (fun c => ([] : List String) = [] ∨ isF c.ReportPlanArn [] = true)
      (fun c => report_plan_of rc.region c) rc.report_plans []
      (fun b hb => Or.inl rfl)]
  simp

/-- C8: with a non-empty ARN inclusion filter every record in the three
containers has an ARN the filter accepts; with an empty or absent filter
each container's size equals the total item count across all regions'
pages. -/
theorem c8_filter_and_counts (pr : Option String)
    (rcl : List (String × BackupRegionalClient)) (l : List String)
    (isF : String → List String → Bool) (b : Backup)
    (hb : Backup.build pr (some rcl) l isF = .ok b) :
    (l ≠ [] →
      (∀ v ∈ b.backup_vaults, isF v.arn l = true) ∧
      (∀ p ∈ b.backup_plans, isF p.arn l = true) ∧
      (∀ rp ∈ b.backup_report_plans, isF rp.arn l = true)) ∧
    (l = [] →
      b.backup_vaults.length = total_vault_items (rcl.map Prod.snd) ∧
      b.backup_plans.length = total_plan_items (rcl.map Prod.snd) ∧
      b.backup_report_plans.length = total_report_plan_items (rcl.map Prod.snd)) := by
  obtain ⟨hv, hp, hr⟩ := Backup.build_ok pr rcl l isF b hb
  constructor
  · intro hl
    refine ⟨?_, ?_, ?_⟩
    · intro v hvm
      rw [hv, mem_collect_all] at hvm
      obtain ⟨c, hc, hm⟩ := hvm
      exact list_backup_vaults_filtered l isF c v hl hm
    · intro p hpm
      rw [hp, mem_collect_all] at hpm
      obtain ⟨c, hc, hm⟩ := hpm
      exact list_backup_plans_filtered l isF c p hl hm
    · intro rp hrm
      rw [hr, mem_collect_all] at hrm
      obtain ⟨c, hc, hm⟩ := hrm
      exact list_backup_report_plans_filtered l isF c rp hl hm
  · intro hl
    subst hl
    refine ⟨?_, ?_, ?_⟩
    · rw [hv, collect_all_length]
      unfold total_vault_items
      simp only [list_backup_vaults_length]
    · rw [hp, collect_all_length]
      unfold total_plan_items
      simp only [list_backup_plans_length]
    · rw [hr, collect_all_length]
      unfold total_report_plan_items
      simp only [list_backup_report_plans_length]

/-- Witness for C8 over the sample one-region client without a filter. -/
theorem c8_witness :
    (([] : List String) ≠ [] →
      (∀ v ∈ sampleBuilt.backup_vaults, sampleFilter v.arn [] = true) ∧
      (∀ p ∈ sampleBuilt.backup_plans, sampleFilter p.arn [] = true) ∧
      (∀ rp ∈ sampleBuilt.backup_report_plans, sampleFilter rp.arn [] = true)) ∧
    (([] : List String) = [] →
      sampleBuilt.backup_vaults.length =
        total_vault_items ([("us-east-1", sampleClient)].map Prod.snd) ∧
      sampleBuilt.backup_plans.length =
        total_plan_items ([("us-east-1", sampleClient)].map Prod.snd) ∧
      sampleBuilt.backup_report_plans.length =
        total_report_plan_items ([("us-east-1", sampleClient)].map Prod.snd)) :=
  c8_filter_and_counts (some "us-east-1") [("us-east-1", sampleClient)] []
    sampleFilter sampleBuilt rfl

/-- C9: every record of the three containers was produced by one of the
regional clients and carries exactly that client's region. -/
theorem c9_region_attribution (pr : Option String)
    (rcl : List (String × BackupRegionalClient)) (l : List String)
    (isF : String → List String → Bool) (b : Backup)
    (hb : Backup.build pr (some rcl) l isF = .ok b) :
    (∀ v ∈ b.backup_vaults, ∃ c, c ∈ rcl.map Prod.snd ∧
        v ∈ list_backup_vaults l isF c ∧ v.region = c.region) ∧
    (∀ p ∈ b.backup_plans, ∃ c, c ∈ rcl.map Prod.snd ∧
        p ∈ list_backup_plans l isF c ∧ p.region = c.region) ∧
    (∀ rp ∈ b.backup_report_plans, ∃ c, c ∈ rcl.map Prod.snd ∧
        rp ∈ list_backup_report_plans l isF c ∧ rp.region = c.region) := by
  obtain ⟨hv, hp, hr⟩ := Backup.build_ok pr rcl l isF b hb
  refine ⟨?_, ?_, ?_⟩
  · intro v hvm
    rw [hv, mem_collect_all] at hvm
    obtain ⟨c, hc, hm⟩ := hvm
    exact ⟨c, hc, hm, list_backup_vaults_region l isF c v hm⟩
  · intro p hpm
    rw [hp, mem_collect_all] at hpm
    obtain ⟨c, hc, hm⟩ := hpm
    exact ⟨c, hc, hm, list_backup_plans_region l isF c p hm⟩
  · intro rp hrm
    rw [hr, mem_collect_all] at hrm
    obtain ⟨c, hc, hm⟩ := hrm
    exact ⟨c, hc, hm, list_backup_report_plans_region l isF c rp hm⟩

/-- Witness for C9 over the sample one-region client with an ARN filter. -/
theorem c9_witness :
    (∀ v ∈ sampleBuiltFiltered.backup_vaults, ∃ c,
        c ∈ [("us-east-1", sampleClient)].map Prod.snd ∧
        v ∈ list_backup_vaults
          ["arn:aws:backup:us-east-1:111111111111:backup-vault:main"] sampleFilter c ∧
        v.region = c.region) ∧
    (∀ p ∈ sampleBuiltFiltered.backup_plans, ∃ c,
        c ∈ [("us-east-1", sampleClient)].map Prod.snd ∧
        p ∈ list_backup_plans
          ["arn:aws:backup:us-east-1:111111111111:backup-vault:main"] sampleFilter c ∧
        p.region = c.region) ∧
    (∀ rp ∈ sampleBuiltFiltered.backup_report_plans, ∃ c,
        c ∈ [("us-east-1", sampleClient)].map Prod.snd ∧
        rp ∈ list_backup_report_plans
          ["arn:aws:backup:us-east-1:111111111111:backup-vault:main"] sampleFilter c ∧
        rp.region = c.region) :=
  c9_region_attribution (some "us-east-1") [("us-east-1", sampleClient)]
    ["arn:aws:backup:us-east-1:111111111111:backup-vault:main"] sampleFilter
    sampleBuiltFiltered rfl

/-- C10: with a falsy profile region, construction raises: an
AttributeError when `generate_regional_clients` returned no mapping, an
IndexError when the mapping is empty — never an empty-but-usable
collector. -/
theorem c10_falsy_profile_region_raises (pr : Option String) (l : List String)
    (isF : String → List String → Bool) (hpr : pyTruthyStr pr = false) :
    Backup.build pr none l isF = .error .attributeError ∧
    Backup.build pr (some []) l isF = .error .indexError := by
  constructor
  · rfl
  · simp only [Backup.build, hpr, Bool.false_eq_true, if_false]

/-- Witness for C10 at an absent profile region. -/
theorem c10_witness :
    Backup.build none none [] sampleFilter = .error .attributeError ∧
    Backup.build none (some []) [] sampleFilter = .error .indexError :=
  c10_falsy_profile_region_raises none [] sampleFilter rfl
